import Mathlib

/-!
Verification development for the api-650_designer tank-sizing engine.

The Python sources (`calculations.py`, `app.py`) are embedded shallowly over an
arbitrary linear ordered field `K` with a floor function.  Python float
arithmetic is modelled as exact field arithmetic; `math.pi` is modelled by the
real number `π` (the double constant differs from `π` by less than `1.2e-16`,
far below every tolerance appearing in the properties proved here).  Python's
`round(x, n)` rounds half-to-even; it is modelled by `round` (half-up), which
agrees with it at every non-midpoint, and no exact midpoint occurs in any value
rounded in this development.  The cube root `** (1/3)` and `math.sqrt` of
`optimize_tank_dimensions` and `generate_thickness_chart_data` force those two
definitions (and only those) to live over `ℝ`; everything else is stated over
`K` and instantiated at `ℚ`, where it evaluates.
-/

/-- Immutable design request per spec §3.  It carries the constructor arguments
of `TankDesignCalculator.__init__` together with the caller-supplied allowable
stresses that `app.py` reads from the form (`sd`, `st`); note that
`TankDesignCalculator.__init__` in `calculations.py` does not accept the two
stress fields - it fixes the stresses internally for SS316L. -/
structure DesignRequest (K : Type) where
  production_rate : K
  holding_period : K
  density : K
  chemical_name : String
  max_fill_fraction : K
  corrosion_allowance : K
  num_tanks : ℤ
  design_margin : K
  allowable_stress_design : K
  allowable_stress_test : K

/-- Result of `calculate_storage_volume` (a Python dict with four entries). -/
structure VolumeBreakdown (K : Type) where
  total_mass : K
  total_volume : K
  geometric_volume : K
  volume_per_tank : K

/-- Result of `optimize_tank_dimensions`. -/
structure TankDimensions (K : Type) where
  diameter : K
  height : K
  actual_volume : K
  dh_ratio : K

/-- Result of `calculate_shell_thickness`. -/
structure ShellThickness (K : Type) where
  required_thickness : K
  shell_thickness : K
  design_thickness_mm : K
  test_thickness_mm : K

/-- One row of the `tank_specifications` table built by `calculate_tank_design`. -/
structure TankSpec (K : Type) where
  tank_no : ℕ
  chemical : String
  capacity : K
  diameter : K
  height : K
  shell_thickness : K
  bottom_thickness : K
  roof_thickness : K

/-- Complete result dict of `calculate_tank_design`. -/
structure DesignResult (K : Type) where
  storage : VolumeBreakdown K
  dimensions : TankDimensions K
  shell : ShellThickness K
  bottom_thickness : K
  roof_thickness : K
  bund_volume : K
  tank_specifications : List (TankSpec K)

/-- Chart payload of `generate_thickness_chart_data` (Plotly metadata strings
included verbatim). -/
structure ChartData (K : Type) where
  heights : List K
  thicknesses : List K
  title : String
  x_title : String
  y_title : String

variable {K : Type} [LinearOrderedField K] [FloorRing K]

/-- Fixed design allowable stress set in `TankDesignCalculator.__init__`
(`calculations.py` line 44): `self.allowable_stress_design = 138.0  # MPa for
SS316L`.  The caller-supplied request value is NOT consulted. -/
def allowable_stress_design : K := 138

/-- Fixed hydrostatic-test allowable stress set in `__init__` (line 45):
`self.allowable_stress_test = 207.0  # MPa for SS316L`. -/
def allowable_stress_test : K := 207

/-- `STANDARD_THICKNESSES` class constant (`calculations.py` line 15). -/
def STANDARD_THICKNESSES : List K := [5, 6, 8, 10, 12, 16, 19, 22, 25, 28, 32, 38, 44, 50]

/-- Python `round(x, 1)`: round to one decimal place.  Modelled half-up; see
the header comment on midpoints. -/
def py_round1 (x : K) : K := ((round (x * 10) : ℤ) : K) / 10

/-- Python `round(x, 2)`: round to two decimal places. -/
def py_round2 (x : K) : K := ((round (x * 100) : ℤ) : K) / 100

/-- `TankDesignCalculator.calculate_storage_volume` (lines 52-79). -/
def calculate_storage_volume (r : DesignRequest K) : VolumeBreakdown K :=
  let adjusted_production_rate := r.production_rate * (1 + r.design_margin)
  let total_mass := adjusted_production_rate * r.holding_period
  let total_volume := total_mass * 1000 / r.density
  let geometric_volume := total_volume / r.max_fill_fraction
  let volume_per_tank := geometric_volume / (r.num_tanks : K)
  { total_mass := total_mass, total_volume := total_volume,
    geometric_volume := geometric_volume, volume_per_tank := volume_per_tank }

/-- Loop of `_round_to_standard_thickness` (lines 220-225): iterate the gauge
list and return the first `std_thickness ≥ thickness` (the early `return` in
the `for` loop); once the list is exhausted, fall back to the next multiple of
6 mm via `math.ceil(thickness / 6) * 6`. -/
def round_to_standard_aux (thickness : K) : List K → K
  | [] => ((⌈thickness / 6⌉ : ℤ) : K) * 6
  | std_thickness :: rest =>
    if std_thickness ≥ thickness then std_thickness
    else round_to_standard_aux thickness rest

/-- `TankDesignCalculator._round_to_standard_thickness` (lines 210-225): the
loop above run on the `STANDARD_THICKNESSES` table. -/
def round_to_standard_thickness (thickness : K) : K :=
  round_to_standard_aux thickness STANDARD_THICKNESSES

/-- Local variable `td_inches` of `calculate_shell_thickness` (lines 136-143).
The stress in the denominator is the fixed `self.allowable_stress_design`. -/
def design_thickness_inches (r : DesignRequest K) (diameter height : K) : K :=
  let diameter_ft := diameter * 3.28084
  let height_ft := height * 3.28084
  let specific_gravity := r.density / 1000
  let sd_psi := allowable_stress_design * 145.038
  if height_ft ≤ 1 then 0
  else 2.6 * diameter_ft * (height_ft - 1) * specific_gravity / sd_psi

/-- Local variable `tt_inches` of `calculate_shell_thickness` (lines 136-147).
It depends on no request field: the test stress is fixed and the hydrostatic
test case carries no specific-gravity factor. -/
def test_thickness_inches (diameter height : K) : K :=
  let diameter_ft := diameter * 3.28084
  let height_ft := height * 3.28084
  let st_psi := allowable_stress_test * 145.038
  if height_ft ≤ 1 then 0
  else 2.6 * diameter_ft * (height_ft - 1) / st_psi

/-- Local variable `required_thickness_mm` of `calculate_shell_thickness`
(lines 149-163): `max` of the two load cases, plus corrosion allowance in
inches, floored at the 3/16-inch API minimum, converted to mm. -/
def required_thickness_mm (r : DesignRequest K) (diameter height : K) : K :=
  let required_thickness_inches :=
    max (design_thickness_inches r diameter height) (test_thickness_inches diameter height)
  let total_required_thickness_inches :=
    required_thickness_inches + r.corrosion_allowance / 25.4
  let min_api_thickness_inches : K := 0.1875
  let final_thickness_inches := max total_required_thickness_inches min_api_thickness_inches
  final_thickness_inches * 25.4

/-- `TankDesignCalculator.calculate_shell_thickness` (lines 113-173), assembled
from the local-variable definitions above exactly as the returned dict is. -/
def calculate_shell_thickness (r : DesignRequest K) (diameter height : K) : ShellThickness K :=
  { required_thickness := py_round2 (required_thickness_mm r diameter height),
    shell_thickness := round_to_standard_thickness (required_thickness_mm r diameter height),
    design_thickness_mm := py_round2 (design_thickness_inches r diameter height * 25.4),
    test_thickness_mm := py_round2 (test_thickness_inches diameter height * 25.4) }

/-- `TankDesignCalculator.calculate_bottom_thickness` (lines 175-184):
`min_bottom = 6` plus the corrosion allowance, no gauge rounding. -/
def calculate_bottom_thickness (r : DesignRequest K) : K :=
  6 + r.corrosion_allowance

/-- `TankDesignCalculator.calculate_roof_thickness` (lines 186-195):
`min_roof = 5` plus the corrosion allowance, no gauge rounding. -/
def calculate_roof_thickness (r : DesignRequest K) : K :=
  5 + r.corrosion_allowance

/-- `TankDesignCalculator.calculate_bund_volume` (lines 197-208). -/
def calculate_bund_volume (tank_volume : K) : K :=
  tank_volume * 1.1

/-- `TankDesignCalculator.optimize_tank_dimensions` (lines 81-111).  The cube
root forces `ℝ`; `dh_ratio = 1.7`, dimensions rounded to one decimal, actual
volume recomputed from the rounded dimensions, aspect ratio guarded against a
zero rounded diameter. -/
noncomputable def optimize_tank_dimensions (volume_per_tank : ℝ) : TankDimensions ℝ :=
  let dh_ratio : ℝ := 1.7
  let diameter := (4 * volume_per_tank / (Real.pi * dh_ratio)) ^ ((1 : ℝ) / 3)
  let height := dh_ratio * diameter
  let diameter_rounded := py_round1 diameter
  let height_rounded := py_round1 height
  { diameter := diameter_rounded,
    height := height_rounded,
    actual_volume := Real.pi * diameter_rounded ^ 2 / 4 * height_rounded,
    dh_ratio := if diameter_rounded > 0 then height_rounded / diameter_rounded else 0 }

/-- `TankDesignCalculator.calculate_tank_design` (lines 227-279). -/
noncomputable def calculate_tank_design (r : DesignRequest ℝ) : DesignResult ℝ :=
  let volume_data := calculate_storage_volume r
  let dimensions := optimize_tank_dimensions volume_data.volume_per_tank
  let shell_data := calculate_shell_thickness r dimensions.diameter dimensions.height
  let bottom_thickness := calculate_bottom_thickness r
  let roof_thickness := calculate_roof_thickness r
  let bund_volume := calculate_bund_volume dimensions.actual_volume
  { storage := volume_data, dimensions := dimensions, shell := shell_data,
    bottom_thickness := bottom_thickness, roof_thickness := roof_thickness,
    bund_volume := bund_volume,
    tank_specifications := (List.range r.num_tanks.toNat).map (fun i =>
      { tank_no := i + 1, chemical := r.chemical_name,
        capacity := py_round1 dimensions.actual_volume,
        diameter := dimensions.diameter, height := dimensions.height,
        shell_thickness := shell_data.shell_thickness,
        bottom_thickness := bottom_thickness, roof_thickness := roof_thickness }) }

/-- Height multipliers of the chart loop (`calculations.py` line 298). -/
def height_factors : List K := [0.5, 0.6, 0.7, 0.8, 0.9, 1.0, 1.1, 1.2, 1.3, 1.4, 1.5]

/-- `TankDesignCalculator.generate_thickness_chart_data` (lines 281-315).  The
`continue` on `height == 0` is modelled by `filterMap` returning `none`. -/
noncomputable def generate_thickness_chart_data (r : DesignRequest ℝ) : ChartData ℝ :=
  let volume_data := calculate_storage_volume r
  let volume_per_tank := volume_data.volume_per_tank
  let base_dimensions := optimize_tank_dimensions volume_per_tank
  let points := (height_factors : List ℝ).filterMap (fun height_factor =>
    let height := base_dimensions.height * height_factor
    if height = 0 then none
    else
      let diameter := Real.sqrt (4 * volume_per_tank / (Real.pi * height))
      some (py_round1 height, (calculate_shell_thickness r diameter height).shell_thickness))
  { heights := points.map Prod.fst,
    thicknesses := points.map Prod.snd,
    title := "Shell Thickness vs Tank Height",
    x_title := "Tank Height (m)",
    y_title := "Shell Thickness (mm)" }

/-- Numeric form fields read by the `/calculate` route of `app.py` (lines
131-139).  `max_fill_fraction` is submitted as a percentage. -/
structure CalculateForm (K : Type) where
  production_rate : K
  holding_period : K
  density : K
  max_fill_fraction : K
  corrosion_allowance : K
  num_tanks : ℤ
  sd : K
  st : K

/-- Failure modes of the `/calculate` route: an explicit validation rejection
(flash + redirect, `app.py` lines 141-148), or the `TypeError` raised because
`app.py` lines 151-160 pass `allowable_stress_design`/`allowable_stress_test`
keyword arguments that `TankDesignCalculator.__init__` does not accept (caught
by the generic `except Exception` handler, lines 190-193). -/
inductive CalculateError where
  | invalidInput
  | unexpectedKeywordArgument
deriving DecidableEq

/-- The `/calculate` route of `app.py` (lines 127-193), restricted to its
decision structure on already-parsed numbers.  Validation happens before the
engine is entered; past validation, constructing the calculator raises
`TypeError` (see `CalculateError.unexpectedKeywordArgument`), so the route
never produces a `DesignResult`. -/
def calculate (f : CalculateForm K) : Except CalculateError (DesignResult K) :=
  if f.production_rate ≤ 0 ∨ f.holding_period ≤ 0 then .error .invalidInput
  else if f.num_tanks ≤ 0 then .error .invalidInput
  else .error .unexpectedKeywordArgument

/-- Worked example of spec §8: 100 TPD, 7 days, acetic acid at 1049 kg/m³,
85 % fill, 2 tanks, 1.5 mm corrosion allowance, zero design margin. -/
noncomputable def example_request : DesignRequest ℝ :=
  { production_rate := 100, holding_period := 7, density := 1049,
    chemical_name := "Acetic Acid", max_fill_fraction := 0.85,
    corrosion_allowance := 1.5, num_tanks := 2, design_margin := 0,
    allowable_stress_design := 138, allowable_stress_test := 207 }

/-- Rational request with the default material parameters, used to instantiate
universally quantified theorems at a concrete point. -/
def base_request : DesignRequest ℚ :=
  { production_rate := 100, holding_period := 7, density := 1000,
    chemical_name := "Liquid", max_fill_fraction := 0.85,
    corrosion_allowance := 1.5, num_tanks := 2, design_margin := 0,
    allowable_stress_design := 138, allowable_stress_test := 207 }

/-- Request whose caller-supplied design stress (276 MPa) differs from the
fixed SS316L constant (138 MPa); exposes that the calculator ignores the
request's stress fields. -/
def cex_request : DesignRequest ℚ :=
  { production_rate := 100, holding_period := 7, density := 1000,
    chemical_name := "Liquid", max_fill_fraction := 0.85,
    corrosion_allowance := 0, num_tanks := 2, design_margin := 0,
    allowable_stress_design := 276, allowable_stress_test := 207 }

/-- Real-valued request with `volume_per_tank = 1`, used to instantiate the
chart-series theorem. -/
noncomputable def chart_request : DesignRequest ℝ :=
  { production_rate := 1, holding_period := 1, density := 1000,
    chemical_name := "Liquid", max_fill_fraction := 1,
    corrosion_allowance := 1.5, num_tanks := 1, design_margin := 0,
    allowable_stress_design := 138, allowable_stress_test := 207 }

/-- Form of the spec §8 boundary case: one tank, zero production rate. -/
def boundary_form : CalculateForm ℚ :=
  { production_rate := 0, holding_period := 7, density := 1049,
    max_fill_fraction := 85, corrosion_allowance := 1.5, num_tanks := 1,
    sd := 138, st := 207 }

/-- Design-case thickness following the specification's words for claim C1
(spec §4.1 step 4 with §3's caller-supplied `allowable_stress_design`):
`(2.6 × D_ft × (H_ft − 1) × SG) / Sd_psi` with `Sd_psi` converted from the
REQUEST's design stress.  Used only to compare the spec's reading against the
source, which fixes the stress instead. -/
def spec_design_thickness_inches (r : DesignRequest K) (diameter height : K) : K :=
  2.6 * (diameter * 3.28084) * (height * 3.28084 - 1) * (r.density / 1000) /
    (r.allowable_stress_design * 145.038)

/-! ### Helper lemmas about the rounding primitives -/

/-- Mathlib's `round` is monotone. -/
theorem round_mono_le {x y : K} (h : x ≤ y) : round x ≤ round y := by
  rw [round_eq, round_eq]
  exact Int.floor_mono (by linarith)

/-- `py_round2` is monotone. -/
theorem py_round2_mono {x y : K} (h : x ≤ y) : py_round2 x ≤ py_round2 y := by
  unfold py_round2
  have h1 : round (x * 100) ≤ round (y * 100) :=
    round_mono_le (mul_le_mul_of_nonneg_right h (by norm_num))
  have h2 : ((round (x * 100) : ℤ) : K) ≤ ((round (y * 100) : ℤ) : K) := Int.cast_le.mpr h1
  linarith

/-- The floor of one half vanishes. -/
theorem floor_one_half_eq_zero : ⌊(1 / 2 : K)⌋ = 0 :=
  Int.floor_eq_iff.mpr (by constructor <;> norm_num)

/-- Rounding to two decimals never climbs past an integer bound. -/
theorem py_round2_le_intCast {x : K} {m : ℤ} (h : x ≤ (m : K)) : py_round2 x ≤ (m : K) := by
  unfold py_round2
  have h100 : x * 100 ≤ ((m * 100 : ℤ) : K) := by
    push_cast
    nlinarith
  have hfl : round (x * 100) ≤ m * 100 := by
    rw [round_eq]
    calc ⌊x * 100 + 1 / 2⌋ ≤ ⌊((m * 100 : ℤ) : K) + 1 / 2⌋ := Int.floor_mono (by linarith)
    _ = m * 100 + ⌊(1 / 2 : K)⌋ := Int.floor_int_add _ _
    _ = m * 100 := by rw [floor_one_half_eq_zero, add_zero]
  have h3 : ((round (x * 100) : ℤ) : K) ≤ ((m * 100 : ℤ) : K) := Int.cast_le.mpr hfl
  push_cast at h3
  linarith

/-- `py_round2` preserves nonnegativity. -/
theorem py_round2_nonneg {x : K} (h : 0 ≤ x) : 0 ≤ py_round2 x := by
  unfold py_round2
  have h1 : round (0 : K) ≤ round (x * 100) :=
    round_mono_le (by nlinarith)
  rw [round_zero] at h1
  have h2 : (0 : K) ≤ ((round (x * 100) : ℤ) : K) := by exact_mod_cast h1
  linarith

/-- When every list entry falls short of the requirement, the loop runs off
the end and the 6 mm-multiple fallback fires. -/
theorem round_to_standard_aux_of_all_lt (t : K) (l : List K) (h : ∀ g ∈ l, ¬t ≤ g) :
    round_to_standard_aux t l = ((⌈t / 6⌉ : ℤ) : K) * 6 := by
  induction l with
  | nil => rfl
  | cons a l ih =>
    simp only [round_to_standard_aux]
    rw [if_neg (h a (List.mem_cons_self a l))]
    exact ih fun g hg => h g (List.mem_cons_of_mem a hg)

/-- When some list entry admits the requirement, the loop stops inside the
list, at an entry that admits the requirement. -/
theorem round_to_standard_aux_found (t : K) (l : List K) (g0 : K) (hg0 : g0 ∈ l)
    (ht : t ≤ g0) :
    round_to_standard_aux t l ∈ l ∧ t ≤ round_to_standard_aux t l := by
  induction l with
  | nil => cases hg0
  | cons a l ih =>
    simp only [round_to_standard_aux]
    by_cases ha : t ≤ a
    · rw [if_pos ha]
      exact ⟨List.mem_cons_self a l, ha⟩
    · rw [if_neg ha]
      have hg0l : g0 ∈ l := by
        rcases List.mem_cons.mp hg0 with rfl | hmem
        · exact absurd ht ha
        · exact hmem
      obtain ⟨h1, h2⟩ := ih hg0l
      exact ⟨List.mem_cons_of_mem a h1, h2⟩

/-- On a list sorted ascendingly, the loop's result is minimal among the
entries admitting the requirement: the first hit of an ascending list is the
least one. -/
theorem round_to_standard_aux_min (t : K) (l : List K) (hsort : l.Pairwise (· ≤ ·)) :
    ∀ g ∈ l, t ≤ g → round_to_standard_aux t l ≤ g := by
  induction l with
  | nil => intro g hg; cases hg
  | cons a l ih =>
    intro g hg htg
    obtain ⟨ha_le, hl⟩ := List.pairwise_cons.mp hsort
    simp only [round_to_standard_aux]
    by_cases ha : t ≤ a
    · rw [if_pos ha]
      rcases List.mem_cons.mp hg with rfl | hgl
      · exact le_rfl
      · exact ha_le g hgl
    · rw [if_neg ha]
      rcases List.mem_cons.mp hg with rfl | hgl
      · exact absurd htg ha
      · exact ih hl g hgl htg

/-- The gauge table is sorted ascendingly. -/
theorem standard_thicknesses_sorted :
    (STANDARD_THICKNESSES : List ℚ).Pairwise (· ≤ ·) := by
  norm_num [STANDARD_THICKNESSES, List.pairwise_cons]

/-- Beyond 50 mm no gauge admits the requirement. -/
theorem standard_thicknesses_all_lt {t : ℚ} (h50 : 50 < t) :
    ∀ g ∈ (STANDARD_THICKNESSES : List ℚ), ¬t ≤ g := by
  intro g hg
  simp only [STANDARD_THICKNESSES, List.mem_cons, List.not_mem_nil, or_false] at hg
  rcases hg with rfl | rfl | rfl | rfl | rfl | rfl | rfl | rfl | rfl | rfl | rfl | rfl | rfl | rfl <;>
    linarith

/-- The selected plate is an integer number of millimetres, at least the
requirement and at least 5 mm. -/
theorem round_to_standard_cases (t : ℚ) :
    ∃ m : ℤ, round_to_standard_thickness t = (m : ℚ) ∧ t ≤ (m : ℚ) ∧ (5 : ℚ) ≤ (m : ℚ) := by
  unfold round_to_standard_thickness
  by_cases h50 : t ≤ 50
  · obtain ⟨hmem, hle⟩ := round_to_standard_aux_found t (STANDARD_THICKNESSES : List ℚ) 50
      (by simp [STANDARD_THICKNESSES]) h50
    simp only [STANDARD_THICKNESSES, List.mem_cons, List.not_mem_nil, or_false] at hmem
    rcases hmem with h | h | h | h | h | h | h | h | h | h | h | h | h | h
    · exact ⟨5, by exact_mod_cast h, by exact_mod_cast h ▸ hle, by norm_num⟩
    · exact ⟨6, by exact_mod_cast h, by exact_mod_cast h ▸ hle, by norm_num⟩
    · exact ⟨8, by exact_mod_cast h, by exact_mod_cast h ▸ hle, by norm_num⟩
    · exact ⟨10, by exact_mod_cast h, by exact_mod_cast h ▸ hle, by norm_num⟩
    · exact ⟨12, by exact_mod_cast h, by exact_mod_cast h ▸ hle, by norm_num⟩
    · exact ⟨16, by exact_mod_cast h, by exact_mod_cast h ▸ hle, by norm_num⟩
    · exact ⟨19, by exact_mod_cast h, by exact_mod_cast h ▸ hle, by norm_num⟩
    · exact ⟨22, by exact_mod_cast h, by exact_mod_cast h ▸ hle, by norm_num⟩
    · exact ⟨25, by exact_mod_cast h, by exact_mod_cast h ▸ hle, by norm_num⟩
    · exact ⟨28, by exact_mod_cast h, by exact_mod_cast h ▸ hle, by norm_num⟩
    · exact ⟨32, by exact_mod_cast h, by exact_mod_cast h ▸ hle, by norm_num⟩
    · exact ⟨38, by exact_mod_cast h, by exact_mod_cast h ▸ hle, by norm_num⟩
    · exact ⟨44, by exact_mod_cast h, by exact_mod_cast h ▸ hle, by norm_num⟩
    · exact ⟨50, by exact_mod_cast h, by exact_mod_cast h ▸ hle, by norm_num⟩
  · push_neg at h50
    rw [round_to_standard_aux_of_all_lt t _ (standard_thicknesses_all_lt h50)]
    have hceil := Int.le_ceil (t / 6)
    have h6 : t / 6 * 6 ≤ ((⌈t / 6⌉ : ℤ) : ℚ) * 6 :=
      mul_le_mul_of_nonneg_right hceil (by norm_num)
    refine ⟨⌈t / 6⌉ * 6, by push_cast; ring, ?_, ?_⟩
    · push_cast
      nlinarith
    · push_cast
      nlinarith

/-- The pre-rounding required thickness always carries the unconditional
3/16-inch floor: it is at least `0.1875 × 25.4 = 4.7625` mm. -/
theorem required_thickness_mm_ge (r : DesignRequest K) (diameter height : K) :
    (4.7625 : K) ≤ required_thickness_mm r diameter height := by
  unfold required_thickness_mm
  have h : (0.1875 : K) ≤
      max (max (design_thickness_inches r diameter height) (test_thickness_inches diameter height)
        + r.corrosion_allowance / 25.4) (0.1875 : K) :=
    le_max_right _ _
  have h2 := mul_le_mul_of_nonneg_right h (by norm_num : (0 : K) ≤ 25.4)
  calc (4.7625 : K) = 0.1875 * 25.4 := by norm_num
  _ ≤ _ := h2

/-! ### Claim theorems over `ℚ` -/

/-- C4: `roundToStandardPlate` returns, for inputs within the gauge table
(`t ≤ 50`), the smallest standard gauge `≥ t`; for inputs beyond the table it
returns `⌈t/6⌉ × 6`; and for all inputs to `calculate_shell_thickness`,
`shell_thickness ≥ required_thickness ≥ 0`. -/
theorem claim_C4 (t : ℚ) (r : DesignRequest ℚ) (diameter height : ℚ) :
    (t ≤ 50 → round_to_standard_thickness t ∈ (STANDARD_THICKNESSES : List ℚ) ∧
      t ≤ round_to_standard_thickness t ∧
      ∀ g ∈ (STANDARD_THICKNESSES : List ℚ), t ≤ g → round_to_standard_thickness t ≤ g) ∧
    (50 < t → round_to_standard_thickness t = ((⌈t / 6⌉ : ℤ) : ℚ) * 6) ∧
    (0 ≤ (calculate_shell_thickness r diameter height).required_thickness ∧
      (calculate_shell_thickness r diameter height).required_thickness ≤
        (calculate_shell_thickness r diameter height).shell_thickness) := by
  refine ⟨?_, ?_, ?_⟩
  · intro h50
    have hfound := round_to_standard_aux_found t (STANDARD_THICKNESSES : List ℚ) 50
      (by simp [STANDARD_THICKNESSES]) h50
    unfold round_to_standard_thickness
    exact ⟨hfound.1, hfound.2, fun g hg hge =>
      round_to_standard_aux_min t _ standard_thicknesses_sorted g hg hge⟩
  · intro h50
    unfold round_to_standard_thickness
    rw [round_to_standard_aux_of_all_lt t _ (standard_thicknesses_all_lt h50)]
  · have h1 := required_thickness_mm_ge r diameter height
    constructor
    · exact py_round2_nonneg (le_trans (by norm_num) h1)
    · obtain ⟨m, hm, htm, _⟩ := round_to_standard_cases (required_thickness_mm r diameter height)
      show py_round2 (required_thickness_mm r diameter height) ≤
        round_to_standard_thickness (required_thickness_mm r diameter height)
      rw [hm]
      exact py_round2_le_intCast htm

/-- C4 witness: at `t = 7` the loop picks gauge 8 (`≥ 7`), at `t = 51` the
6 mm-multiple fallback fires. -/
theorem claim_C4_witness :
    ((7 : ℚ) ≤ 50 ∧ (7 : ℚ) ≤ round_to_standard_thickness (7 : ℚ)) ∧
    (50 < (51 : ℚ) ∧ round_to_standard_thickness (51 : ℚ) = ((⌈(51 : ℚ) / 6⌉ : ℤ) : ℚ) * 6) :=
  ⟨⟨by norm_num, ((claim_C4 7 base_request 0 0).1 (by norm_num)).2.1⟩,
   ⟨by norm_num, (claim_C4 51 base_request 0 0).2.1 (by norm_num)⟩⟩

/-- C5: when the height converts to at most one foot, both diagnostic
thicknesses are exactly zero and the computation is total (the embedding is a
plain function; no division by the degenerate head occurs because the guarded
branch returns the constant 0). -/
theorem claim_C5 (r : DesignRequest ℚ) (diameter height : ℚ)
    (h : height * 3.28084 ≤ 1) :
    (calculate_shell_thickness r diameter height).design_thickness_mm = 0 ∧
    (calculate_shell_thickness r diameter height).test_thickness_mm = 0 := by
  have hd : design_thickness_inches r diameter height = 0 := by
    unfold design_thickness_inches
    simp [h]
  have ht : test_thickness_inches diameter height = 0 := by
    unfold test_thickness_inches
    simp [h]
  simp [calculate_shell_thickness, hd, ht, py_round2]

/-- C5 witness: a zero-height tank yields zero diagnostic thicknesses. -/
theorem claim_C5_witness :
    ((0 : ℚ) * 3.28084 ≤ 1) ∧
    ((calculate_shell_thickness base_request 10 0).design_thickness_mm = 0 ∧
      (calculate_shell_thickness base_request 10 0).test_thickness_mm = 0) :=
  ⟨by norm_num, claim_C5 base_request 10 0 (by norm_num)⟩

/-- C7: bottom thickness is exactly 6 mm plus the corrosion allowance and roof
thickness exactly 5 mm plus the corrosion allowance, with no gauge rounding:
at the default 1.5 mm allowance the bottom value 7.5 mm is not a standard
gauge, while gauge rounding would have produced 8 mm. -/
theorem claim_C7 :
    (∀ r : DesignRequest ℚ, calculate_bottom_thickness r = 6 + r.corrosion_allowance ∧
      calculate_roof_thickness r = 5 + r.corrosion_allowance) ∧
    calculate_bottom_thickness base_request = 7.5 ∧
    (7.5 : ℚ) ∉ (STANDARD_THICKNESSES : List ℚ) ∧
    round_to_standard_thickness (7.5 : ℚ) = 8 := by
  refine ⟨fun r => ⟨rfl, rfl⟩, ?_, ?_, ?_⟩
  · norm_num [calculate_bottom_thickness, base_request]
  · norm_num [STANDARD_THICKNESSES]
  · norm_num [round_to_standard_thickness, STANDARD_THICKNESSES, round_to_standard_aux]

/-- C1 (amended): for heights above one foot the design-case thickness is
`(2.6 × D_ft × (H_ft − 1) × SG) / Sd_psi` and the test-case thickness is
`(2.6 × D_ft × (H_ft − 1)) / St_psi`, where the stresses are the FIXED SS316L
constants 138 MPa and 207 MPa converted to psi by `× 145.038` - the request's
caller-supplied stresses play no role. -/
theorem claim_C1 (r : DesignRequest ℚ) (diameter height : ℚ)
    (h : 1 < height * 3.28084) :
    design_thickness_inches r diameter height =
      2.6 * (diameter * 3.28084) * (height * 3.28084 - 1) * (r.density / 1000) /
        (138 * 145.038) ∧
    test_thickness_inches diameter height =
      2.6 * (diameter * 3.28084) * (height * 3.28084 - 1) / (207 * 145.038) ∧
    (calculate_shell_thickness r diameter height).design_thickness_mm =
      py_round2 (2.6 * (diameter * 3.28084) * (height * 3.28084 - 1) * (r.density / 1000) /
        (138 * 145.038) * 25.4) ∧
    (calculate_shell_thickness r diameter height).test_thickness_mm =
      py_round2 (2.6 * (diameter * 3.28084) * (height * 3.28084 - 1) / (207 * 145.038) * 25.4) := by
  have hd : design_thickness_inches r diameter height =
      2.6 * (diameter * 3.28084) * (height * 3.28084 - 1) * (r.density / 1000) /
        (138 * 145.038) := by
    unfold design_thickness_inches allowable_stress_design
    dsimp only
    rw [if_neg (not_le.mpr h)]
  have ht : test_thickness_inches diameter height =
      2.6 * (diameter * 3.28084) * (height * 3.28084 - 1) / (207 * 145.038) := by
    unfold test_thickness_inches allowable_stress_test
    dsimp only
    rw [if_neg (not_le.mpr h)]
  exact ⟨hd, ht, by simp [calculate_shell_thickness, hd], by simp [calculate_shell_thickness, ht]⟩

/-- C1 witness: a one-metre-tall tank exceeds one foot, so the formula branch
is exercised. -/
theorem claim_C1_witness :
    (1 < (1 : ℚ) * 3.28084) ∧
    design_thickness_inches base_request 10 1 =
      2.6 * ((10 : ℚ) * 3.28084) * ((1 : ℚ) * 3.28084 - 1) * (base_request.density / 1000) /
        (138 * 145.038) :=
  ⟨by norm_num, (claim_C1 base_request 10 1 (by norm_num)).1⟩

/-- C1 counterexample: with a caller-supplied design stress of 276 MPa the
code's design-case thickness (computed with the fixed 138 MPa) differs from
the caller-supplied-stress formula the claim states. -/
theorem claim_C1_cex :
    1 < (10 : ℚ) * 3.28084 ∧
    design_thickness_inches cex_request 10 10 ≠
      spec_design_thickness_inches cex_request 10 10 := by
  constructor
  · norm_num
  · unfold design_thickness_inches spec_design_thickness_inches allowable_stress_design cex_request
    norm_num

/-- C2: any form whose production rate or holding period is nonpositive is
rejected by the `/calculate` route with the `InvalidInput` flash before the
engine is entered, and no `DesignResult` is produced. -/
theorem claim_C2 (f : CalculateForm ℚ)
    (h : f.production_rate ≤ 0 ∨ f.holding_period ≤ 0) :
    calculate f = Except.error CalculateError.invalidInput := by
  unfold calculate
  rw [if_pos h]

/-- C2 witness: the spec §8 boundary case `num_tanks = 1, production_rate = 0`
is rejected as `InvalidInput`. -/
theorem claim_C2_witness :
    (boundary_form.production_rate ≤ 0 ∨ boundary_form.holding_period ≤ 0) ∧
    calculate boundary_form = Except.error CalculateError.invalidInput :=
  ⟨Or.inl le_rfl, claim_C2 boundary_form (Or.inl le_rfl)⟩

/-- C10: the 3/16-inch minimum is applied unconditionally (for every diameter,
including ≥ 15.2 m, and every height, including nonpositive ones), so the
pre-rounding requirement is at least 4.7625 mm, the reported
`required_thickness` at least 4.76 mm, and the selected `shell_thickness` at
least 5 mm. -/
theorem claim_C10 (r : DesignRequest ℚ) (diameter height : ℚ) :
    (4.7625 : ℚ) ≤ required_thickness_mm r diameter height ∧
    (4.76 : ℚ) ≤ (calculate_shell_thickness r diameter height).required_thickness ∧
    (5 : ℚ) ≤ (calculate_shell_thickness r diameter height).shell_thickness := by
  have h1 := required_thickness_mm_ge r diameter height
  refine ⟨h1, ?_, ?_⟩
  · have h2 : py_round2 (4.7625 : ℚ) ≤ py_round2 (required_thickness_mm r diameter height) :=
      py_round2_mono h1
    have h3 : py_round2 (4.7625 : ℚ) = 4.76 := by
      unfold py_round2
      rw [round_eq]
      have h4 : ⌊(4.7625 : ℚ) * 100 + 1 / 2⌋ = 476 :=
        Int.floor_eq_iff.mpr (by constructor <;> norm_num)
      rw [h4]
      norm_num
    show (4.76 : ℚ) ≤ py_round2 (required_thickness_mm r diameter height)
    rw [← h3]
    exact h2
  · obtain ⟨m, hm, _, h5⟩ := round_to_standard_cases (required_thickness_mm r diameter height)
    show (5 : ℚ) ≤ round_to_standard_thickness (required_thickness_mm r diameter height)
    rw [hm]
    exact h5

/-- C8: with a nonnegative density and a fixed nonnegative diameter, raising
the height never decreases either diagnostic thickness. -/
theorem claim_C8 (r : DesignRequest ℚ) (diameter h1 h2 : ℚ)
    (hρ : 0 ≤ r.density) (hd : 0 ≤ diameter) (hh : h1 ≤ h2) :
    (calculate_shell_thickness r diameter h1).design_thickness_mm ≤
      (calculate_shell_thickness r diameter h2).design_thickness_mm ∧
    (calculate_shell_thickness r diameter h1).test_thickness_mm ≤
      (calculate_shell_thickness r diameter h2).test_thickness_mm := by
  have h26 : (0 : ℚ) ≤ 2.6 * (diameter * 3.28084) :=
    mul_nonneg (by norm_num) (mul_nonneg hd (by norm_num))
  have hdm : design_thickness_inches r diameter h1 ≤ design_thickness_inches r diameter h2 := by
    unfold design_thickness_inches allowable_stress_design
    dsimp only
    split_ifs with ha hb hb
    · exact le_rfl
    · apply div_nonneg _ (by norm_num)
      exact mul_nonneg (mul_nonneg h26 (by linarith [not_le.mp hb])) (by positivity)
    · exact absurd (le_trans (by linarith : h1 * 3.28084 ≤ h2 * 3.28084) hb) ha
    · apply (div_le_div_right (by norm_num)).mpr
      apply mul_le_mul_of_nonneg_right _ (by positivity)
      exact mul_le_mul_of_nonneg_left (by linarith) h26
  have htm : test_thickness_inches diameter h1 ≤ test_thickness_inches diameter h2 := by
    unfold test_thickness_inches allowable_stress_test
    dsimp only
    split_ifs with ha hb hb
    · exact le_rfl
    · apply div_nonneg _ (by norm_num)
      exact mul_nonneg h26 (by linarith [not_le.mp hb])
    · exact absurd (le_trans (by linarith : h1 * 3.28084 ≤ h2 * 3.28084) hb) ha
    · apply (div_le_div_right (by norm_num)).mpr
      exact mul_le_mul_of_nonneg_left (by linarith) h26
  constructor
  · exact py_round2_mono (mul_le_mul_of_nonneg_right hdm (by norm_num))
  · exact py_round2_mono (mul_le_mul_of_nonneg_right htm (by norm_num))

/-- C8 witness: the monotonicity instantiated at the default request, a 10 m
diameter and heights 5 m ≤ 6 m. -/
theorem claim_C8_witness :
    ((0 : ℚ) ≤ base_request.density ∧ (0 : ℚ) ≤ 10 ∧ (5 : ℚ) ≤ 6) ∧
    ((calculate_shell_thickness base_request 10 5).design_thickness_mm ≤
      (calculate_shell_thickness base_request 10 6).design_thickness_mm ∧
     (calculate_shell_thickness base_request 10 5).test_thickness_mm ≤
      (calculate_shell_thickness base_request 10 6).test_thickness_mm) :=
  ⟨⟨by norm_num [base_request], by norm_num, by norm_num⟩,
   claim_C8 base_request 10 5 6 (by norm_num [base_request]) (by norm_num) (by norm_num)⟩

/-! ### Helper lemmas for the real-valued optimizer -/

/-- Cubing undoes the `** (1/3)` of the optimizer on nonnegative input. -/
theorem rpow_third_cube {x : ℝ} (hx : 0 ≤ x) : (x ^ ((1 : ℝ) / 3)) ^ (3 : ℕ) = x := by
  rw [← Real.rpow_natCast (x ^ ((1 : ℝ) / 3)) 3, ← Real.rpow_mul hx]
  norm_num

/-- Lower bound on a cube root from a lower bound on the cube. -/
theorem lt_rpow_third (a x : ℝ) (ha : 0 ≤ a) (hx : 0 ≤ x) (h : a ^ 3 < x) :
    a < x ^ ((1 : ℝ) / 3) := by
  have hpos : (0 : ℝ) ≤ x ^ ((1 : ℝ) / 3) := Real.rpow_nonneg hx _
  refine lt_of_pow_lt_pow_left₀ 3 hpos ?_
  rw [rpow_third_cube hx]
  exact h

/-- Upper bound on a cube root from an upper bound on the cube. -/
theorem rpow_third_lt (x b : ℝ) (hx : 0 ≤ x) (hb : 0 ≤ b) (h : x < b ^ 3) :
    x ^ ((1 : ℝ) / 3) < b := by
  refine lt_of_pow_lt_pow_left₀ 3 hb ?_
  rw [rpow_third_cube hx]
  exact h

/-- Evaluation rule for `round(x, 1)` from a bracketing of `10x + 1/2`. -/
theorem py_round1_eq_of (x : K) (n : ℤ) (h1 : (n : K) ≤ x * 10 + 1 / 2)
    (h2 : x * 10 + 1 / 2 < (n : K) + 1) :
    py_round1 x = (n : K) / 10 := by
  unfold py_round1
  rw [round_eq, Int.floor_eq_iff.mpr ⟨h1, h2⟩]

/-- Lower bound on `round(x, 1)` from a lower bound on `10x + 1/2`. -/
theorem py_round1_ge (x : K) (n : ℤ) (h : (n : K) ≤ x * 10 + 1 / 2) :
    (n : K) / 10 ≤ py_round1 x := by
  unfold py_round1
  rw [round_eq]
  have h1 : n ≤ ⌊x * 10 + 1 / 2⌋ := Int.le_floor.mpr h
  have h2 : (n : K) ≤ ((⌊x * 10 + 1 / 2⌋ : ℤ) : K) := by exact_mod_cast h1
  linarith

/-- For any volume of at least one litre the rounded diameter is at least
0.1 m (its unrounded value exceeds 0.05 m). -/
theorem optimize_diameter_ge {V : ℝ} (hV : 1 / 1000 ≤ V) :
    1 / 10 ≤ (optimize_tank_dimensions V).diameter := by
  have hpi2 := Real.pi_lt_d6
  have hpi0 := Real.pi_pos
  have hden : (0 : ℝ) < Real.pi * 1.7 := by positivity
  have hx0 : (0 : ℝ) ≤ 4 * V / (Real.pi * 1.7) := div_nonneg (by linarith) hden.le
  have hcube : ((1 : ℝ) / 20) ^ 3 < 4 * V / (Real.pi * 1.7) := by
    rw [lt_div_iff hden]
    nlinarith
  have hc := lt_rpow_third (1 / 20) (4 * V / (Real.pi * 1.7)) (by norm_num) hx0 hcube
  simp only [optimize_tank_dimensions]
  have h1 := py_round1_ge ((4 * V / (Real.pi * 1.7)) ^ ((1 : ℝ) / 3)) 1 (by push_cast; linarith)
  push_cast at h1
  linarith

/-- For any volume of at least one litre the rounded height is at least
0.1 m. -/
theorem optimize_height_ge {V : ℝ} (hV : 1 / 1000 ≤ V) :
    1 / 10 ≤ (optimize_tank_dimensions V).height := by
  have hpi2 := Real.pi_lt_d6
  have hpi0 := Real.pi_pos
  have hden : (0 : ℝ) < Real.pi * 1.7 := by positivity
  have hx0 : (0 : ℝ) ≤ 4 * V / (Real.pi * 1.7) := div_nonneg (by linarith) hden.le
  have hcube : ((1 : ℝ) / 20) ^ 3 < 4 * V / (Real.pi * 1.7) := by
    rw [lt_div_iff hden]
    nlinarith
  have hc := lt_rpow_third (1 / 20) (4 * V / (Real.pi * 1.7)) (by norm_num) hx0 hcube
  simp only [optimize_tank_dimensions]
  have h1 := py_round1_ge (1.7 * ((4 * V / (Real.pi * 1.7)) ^ ((1 : ℝ) / 3))) 1
    (by push_cast; nlinarith)
  push_cast at h1
  linarith

/-- Storage-volume pipeline of the spec §8 example, evaluated exactly. -/
theorem example_storage_eval :
    (calculate_storage_volume example_request).total_mass = 700 ∧
    (calculate_storage_volume example_request).total_volume = 700000 / 1049 ∧
    (calculate_storage_volume example_request).geometric_volume = 14000000 / 17833 ∧
    (calculate_storage_volume example_request).volume_per_tank = 7000000 / 17833 := by
  refine ⟨?_, ?_, ?_, ?_⟩ <;> norm_num [calculate_storage_volume, example_request]

/-- The unrounded optimal diameter of the example lies in `(6.62, 6.65)`. -/
theorem example_cbrt_bounds :
    6.62 < (4 * ((7000000 : ℝ) / 17833) / (Real.pi * 1.7)) ^ ((1 : ℝ) / 3) ∧
    (4 * ((7000000 : ℝ) / 17833) / (Real.pi * 1.7)) ^ ((1 : ℝ) / 3) < 6.65 := by
  have hpi1 := Real.pi_gt_d6
  have hpi2 := Real.pi_lt_d6
  have hden : (0 : ℝ) < Real.pi * 1.7 := by positivity
  have hx0 : (0 : ℝ) ≤ 4 * ((7000000 : ℝ) / 17833) / (Real.pi * 1.7) :=
    div_nonneg (by norm_num) hden.le
  constructor
  · apply lt_rpow_third _ _ (by norm_num) hx0
    rw [lt_div_iff hden]
    nlinarith
  · apply rpow_third_lt _ _ hx0 (by norm_num)
    rw [div_lt_iff hden]
    nlinarith

/-- Rounded dimensions of the spec §8 example: 6.6 m diameter, 11.3 m
height. -/
theorem example_dimensions :
    (optimize_tank_dimensions ((7000000 : ℝ) / 17833)).diameter = 6.6 ∧
    (optimize_tank_dimensions ((7000000 : ℝ) / 17833)).height = 11.3 := by
  obtain ⟨hlo, hhi⟩ := example_cbrt_bounds
  constructor
  · simp only [optimize_tank_dimensions]
    rw [py_round1_eq_of ((4 * ((7000000 : ℝ) / 17833) / (Real.pi * 1.7)) ^ ((1 : ℝ) / 3)) 66
      (by push_cast; linarith) (by push_cast; linarith)]
    norm_num
  · simp only [optimize_tank_dimensions]
    rw [py_round1_eq_of (1.7 * ((4 * ((7000000 : ℝ) / 17833) / (Real.pi * 1.7)) ^ ((1 : ℝ) / 3)))
      113 (by push_cast; nlinarith) (by push_cast; nlinarith)]
    norm_num

/-- C3: on the spec §8 example request (100 TPD, 7 days, 1049 kg/m³, 85 %
fill, 2 tanks, zero margin) the pipeline yields 700 t total mass, a total
volume within 0.005 of 667.30 m³, a geometric volume within 0.005 of
785.06 m³, a per-tank volume within 0.005 of 392.53 m³, and the optimizer
returns exactly 6.6 m diameter and 11.3 m height. -/
theorem claim_C3 :
    (calculate_storage_volume example_request).total_mass = 700 ∧
    |(calculate_storage_volume example_request).total_volume - 667.30| < 0.005 ∧
    |(calculate_storage_volume example_request).geometric_volume - 785.06| < 0.005 ∧
    |(calculate_storage_volume example_request).volume_per_tank - 392.53| < 0.005 ∧
    (optimize_tank_dimensions
      (calculate_storage_volume example_request).volume_per_tank).diameter = 6.6 ∧
    (optimize_tank_dimensions
      (calculate_storage_volume example_request).volume_per_tank).height = 11.3 := by
  obtain ⟨hm, hv, hg, hp⟩ := example_storage_eval
  refine ⟨hm, ?_, ?_, ?_, ?_, ?_⟩
  · rw [hv, abs_lt]
    constructor <;> norm_num
  · rw [hg, abs_lt]
    constructor <;> norm_num
  · rw [hp, abs_lt]
    constructor <;> norm_num
  · rw [hp]
    exact example_dimensions.1
  · rw [hp]
    exact example_dimensions.2

/-- C6 (amended): `actual_volume` is recomputed from the returned rounded
diameter and height by exactly `π·D²/4·H`; the bund volume is exactly
`1.1 × actual_volume`; and `actual_volume ≥ 10⁻⁴` holds whenever
`volume_per_tank ≥ 10⁻³` (for smaller positive volumes both dimensions can
round to 0.0, collapsing `actual_volume` to 0, so the original unrestricted
epsilon bound fails - see the counterexample). -/
theorem claim_C6 (V : ℝ) :
    (optimize_tank_dimensions V).actual_volume =
      Real.pi * (optimize_tank_dimensions V).diameter ^ 2 / 4 *
        (optimize_tank_dimensions V).height ∧
    calculate_bund_volume (optimize_tank_dimensions V).actual_volume =
      1.1 * (optimize_tank_dimensions V).actual_volume ∧
    (1 / 1000 ≤ V → 1 / 10000 ≤ (optimize_tank_dimensions V).actual_volume) := by
  refine ⟨by simp only [optimize_tank_dimensions], ?_, ?_⟩
  · unfold calculate_bund_volume
    ring
  · intro hV
    have hd := optimize_diameter_ge hV
    have hh := optimize_height_ge hV
    have hpi1 := Real.pi_gt_d6
    have hpi0 := Real.pi_pos
    simp only [optimize_tank_dimensions] at hd hh ⊢
    set d := py_round1 ((4 * V / (Real.pi * 1.7)) ^ ((1 : ℝ) / 3)) with hdd
    set ht := py_round1 (1.7 * (4 * V / (Real.pi * 1.7)) ^ ((1 : ℝ) / 3)) with hht
    have hd2 : (1 / 100 : ℝ) ≤ d ^ 2 := by nlinarith
    have hA : (3 / 100 : ℝ) ≤ Real.pi * d ^ 2 := by nlinarith
    have hquart : (0 : ℝ) ≤ Real.pi * d ^ 2 / 4 := by positivity
    have hB := mul_le_mul (by linarith : (3 / 400 : ℝ) ≤ Real.pi * d ^ 2 / 4) hh
      (by norm_num) hquart
    linarith

/-- C6 counterexample: at `volume_per_tank = 10⁻⁴ > 0` the unrounded diameter
is below 0.05 m, so it rounds to 0.0 and the recomputed `actual_volume` is
exactly 0 - no positive epsilon bounds it from below. -/
theorem claim_C6_cex :
    (0 : ℝ) < 1 / 10000 ∧
    (optimize_tank_dimensions ((1 : ℝ) / 10000)).actual_volume = 0 := by
  refine ⟨by norm_num, ?_⟩
  have hpi1 := Real.pi_gt_d6
  have hden : (0 : ℝ) < Real.pi * 1.7 := by positivity
  have hx0 : (0 : ℝ) ≤ 4 * ((1 : ℝ) / 10000) / (Real.pi * 1.7) :=
    div_nonneg (by norm_num) hden.le
  have hcube : 4 * ((1 : ℝ) / 10000) / (Real.pi * 1.7) < ((1 : ℝ) / 20) ^ 3 := by
    rw [div_lt_iff hden]
    nlinarith
  have hc := rpow_third_lt (4 * ((1 : ℝ) / 10000) / (Real.pi * 1.7)) (1 / 20) hx0
    (by norm_num) hcube
  have hc0 : (0 : ℝ) ≤ (4 * ((1 : ℝ) / 10000) / (Real.pi * 1.7)) ^ ((1 : ℝ) / 3) :=
    Real.rpow_nonneg hx0 _
  simp only [optimize_tank_dimensions]
  rw [py_round1_eq_of ((4 * ((1 : ℝ) / 10000) / (Real.pi * 1.7)) ^ ((1 : ℝ) / 3)) 0
    (by push_cast; linarith) (by push_cast; linarith)]
  norm_num

/-- C6 witness: at one cubic metre per tank the epsilon bound holds. -/
theorem claim_C6_witness :
    (1 / 1000 : ℝ) ≤ 1 ∧ 1 / 10000 ≤ (optimize_tank_dimensions 1).actual_volume :=
  ⟨by norm_num, (claim_C6 1).2.2 (by norm_num)⟩

/-- C9: the chart series carries one `(height, thickness)` point per factor of
the fixed progression `[0.5, …, 1.5]` applied to the base optimized height,
skipping exactly the factors whose resulting height is 0; the heights appear
in the factors' order, at most 11 points arise, the thickness list is aligned
with the height list, and when the base height is nonzero all 11 points are
present.  Determinism across calls is by construction: the embedding is a pure
function of the request. -/
theorem claim_C9 (r : DesignRequest ℝ) :
    (generate_thickness_chart_data r).heights =
      (height_factors : List ℝ).filterMap (fun height_factor =>
        if (optimize_tank_dimensions
            (calculate_storage_volume r).volume_per_tank).height * height_factor = 0
        then none
        else some (py_round1 ((optimize_tank_dimensions
          (calculate_storage_volume r).volume_per_tank).height * height_factor))) ∧
    (generate_thickness_chart_data r).heights.length ≤ 11 ∧
    (generate_thickness_chart_data r).thicknesses.length =
      (generate_thickness_chart_data r).heights.length ∧
    ((optimize_tank_dimensions
        (calculate_storage_volume r).volume_per_tank).height ≠ 0 →
      (generate_thickness_chart_data r).heights.length = 11) := by
  set b := (optimize_tank_dimensions
    (calculate_storage_volume r).volume_per_tank).height with hb
  have hh : (generate_thickness_chart_data r).heights =
      (height_factors : List ℝ).filterMap (fun height_factor =>
        if b * height_factor = 0 then none else some (py_round1 (b * height_factor))) := by
    simp only [generate_thickness_chart_data, List.map_filterMap]
    congr 1
    funext f
    rcases eq_or_ne (b * f) 0 with h0 | h0
    · simp [h0]
    · simp [h0]
  refine ⟨hh, ?_, ?_, ?_⟩
  · rw [hh]
    exact le_trans (List.length_filterMap_le _ _) (by simp [height_factors])
  · simp only [generate_thickness_chart_data, List.length_map]
  · intro hbne
    rw [hh]
    norm_num [height_factors, List.filterMap_cons, mul_eq_zero, hbne]

/-- C9 witness: for a request with `volume_per_tank = 1` the base height is
nonzero and the series has all 11 points. -/
theorem claim_C9_witness :
    (optimize_tank_dimensions
      (calculate_storage_volume chart_request).volume_per_tank).height ≠ 0 ∧
    (generate_thickness_chart_data chart_request).heights.length = 11 := by
  have hvpt : (calculate_storage_volume chart_request).volume_per_tank = 1 := by
    norm_num [calculate_storage_volume, chart_request]
  have hb : (optimize_tank_dimensions
      (calculate_storage_volume chart_request).volume_per_tank).height ≠ 0 := by
    rw [hvpt]
    have h := optimize_height_ge (show (1 : ℝ) / 1000 ≤ 1 by norm_num)
    exact ne_of_gt (lt_of_lt_of_le (by norm_num) h)
  exact ⟨hb, (claim_C9 chart_request).2.2.2 hb⟩
